import Mathlib

/-!
Shallow embedding of src/src/backend/routers/announcements.py
(the announcements router of the school management API).

Modelling conventions:
* A Python datetime value is modelled by PyDatetime: a wall-clock timestamp
  counted in seconds (field ts, proleptic Gregorian calendar, epoch
  1970-01-01T00:00:00) together with an optional UTC offset in minutes
  (field off); off = none models an offset-naive datetime.  Python compares
  two aware datetimes by their UTC instant and two naive datetimes by wall
  clock; both are the key of this file.  Comparing a naive datetime with an
  aware one raises TypeError in Python, which the embedding surfaces as the
  Resp.pyError outcome (an uncaught exception, i.e. an HTTP 500, not an
  HTTPException raised by the handler).
* datetime.fromisoformat is modelled by pyFromIso on the grammar
  YYYY-MM-DD[sHH:MM[:SS][+HH:MM or -HH:MM]] with a single separator
  character s, which is the subset of ISO-8601 exercised by this API, with
  real calendar validation (month 1-12, day bounded by the month length
  with leap years, hour up to 23, minute and second up to 59, offset hour
  up to 23 and offset minute up to 59, year at least 1).
  The str.replace call with the one-character pattern Z is modelled by
  zReplace, which rewrites every occurrence of Z to +00:00.
* datetime.now() always returns an offset-naive value; the operations take
  the wall-clock seconds of each now() call as an explicit Int argument.
* The MongoDB collections are modelled as lists: insert_one appends,
  find_one on an id and update_one and delete_one act on the first record
  carrying that id, and sort("created_at", -1) orders by created_at
  descending.  BSON stores every datetime as a UTC instant, so the stored
  comparisons of the active query are key comparisons.  The teachers
  collection is modelled by the list of its usernames.
* HTTPException(status_code, detail) raised by a handler is
  Resp.httpError status_code detail; the dict returned on success is
  Resp.ok carrying the record (rendering datetimes through isoformat for
  the JSON response is serialization at the boundary and is not modelled).
* ObjectId(string) succeeds exactly on 24-character hexadecimal strings;
  parseObjectId maps such a string to the numeric id value.
* Python str.strip() is modelled by pyStrip (drop whitespace from both
  ends), and the truthiness test "if not message" / "if start_date" is
  modelled by comparison with the empty string or none, matching Python
  where both None and the empty string are falsy.
-/

/-- Model of a Python datetime: wall-clock seconds plus an optional UTC
offset in minutes (none = offset-naive). -/
structure PyDatetime where
  ts : Int
  off : Option Int
deriving DecidableEq

/-- The instant a datetime denotes, as used by Python comparisons between
two aware datetimes (UTC = wall clock minus offset) and by BSON storage;
for naive values this is the wall clock itself. -/
def PyDatetime.key (d : PyDatetime) : Int := d.ts - 60 * d.off.getD 0

/-- Python comparison a <= b between datetimes: defined (some) only when
both sides have the same awareness, in which case it compares keys;
none models the TypeError raised on a naive/aware comparison. -/
def pyLe (a b : PyDatetime) : Option Bool :=
  if a.off.isSome = b.off.isSome then some (decide (a.key ≤ b.key)) else none

/-- Model of s.replace from Python used as s.replace with the pattern Z and
the replacement +00:00: every occurrence of the character Z is rewritten. -/
def zReplace (s : String) : String :=
  ⟨s.data.foldr
    (fun c acc =>
      if c = 'Z' then '+' :: '0' :: '0' :: ':' :: '0' :: '0' :: acc
      else c :: acc) []⟩

/-- Value of a decimal digit character, none for a non-digit. -/
def digitVal? (c : Char) : Option Nat :=
  if c.isDigit then some (c.toNat - 48) else none

/-- Read exactly two decimal digits from the front of a character list. -/
def read2 : List Char → Option (Nat × List Char)
  | c1 :: c2 :: rest => do
      let a ← digitVal? c1
      let b ← digitVal? c2
      pure (a * 10 + b, rest)
  | _ => none

/-- Read exactly four decimal digits from the front of a character list. -/
def read4 : List Char → Option (Nat × List Char)
  | c1 :: c2 :: c3 :: c4 :: rest => do
      let a ← digitVal? c1
      let b ← digitVal? c2
      let c ← digitVal? c3
      let d ← digitVal? c4
      pure (((a * 10 + b) * 10 + c) * 10 + d, rest)
  | _ => none

/-- Consume one expected character. -/
def expectChar (c : Char) : List Char → Option (List Char)
  | x :: rest => if x = c then some rest else none
  | [] => none

/-- Gregorian leap-year test. -/
def isLeap (y : Nat) : Bool :=
  (y % 4 == 0 && y % 100 != 0) || y % 400 == 0

/-- Number of days in a month of the proleptic Gregorian calendar. -/
def daysInMonth (y m : Nat) : Nat :=
  if m = 2 then (if isLeap y then 29 else 28)
  else if m = 4 ∨ m = 6 ∨ m = 9 ∨ m = 11 then 30
  else 31

/-- Days from 1970-01-01 to the given proleptic Gregorian date (civil
calendar; standard era decomposition, exact for every year from 1). -/
def daysFromCivil (y m d : Nat) : Int :=
  let yy := if m ≤ 2 then y - 1 else y
  let era := yy / 400
  let yoe := yy - era * 400
  let mp := if m ≤ 2 then m + 9 else m - 3
  let doy := (153 * mp + 2) / 5 + d - 1
  let doe := yoe * 365 + yoe / 4 - yoe / 100 + doy
  (era * 146097 + doe : Int) - 719468

/-- Wall-clock seconds of a civil date and time-of-day. -/
def civilTs (y mo d h mi s : Nat) : Int :=
  daysFromCivil y mo d * 86400 + ((h * 3600 + mi * 60 + s : Nat) : Int)

/-- Time-of-day and offset part of the modelled fromisoformat grammar. -/
def parseTimePart (y mo d : Nat) (cs : List Char) : Option PyDatetime := do
  let (h, r1) ← read2 cs
  let r2 ← expectChar ':' r1
  let (mi, r3) ← read2 r2
  let (sec, r4) ←
    match r3 with
    | ':' :: rest => do
        let (se, r) ← read2 rest
        pure (se, r)
    | _ => pure (0, r3)
  if h ≤ 23 ∧ mi ≤ 59 ∧ sec ≤ 59 then
    let ts := civilTs y mo d h mi sec
    match r4 with
    | [] => some ⟨ts, none⟩
    | c :: r5 => do
        let sign : Int ← if c = '+' then some 1 else if c = '-' then some (-1) else none
        let (oh, r6) ← read2 r5
        let r7 ← expectChar ':' r6
        let (om, r8) ← read2 r7
        if r8 = [] ∧ oh ≤ 23 ∧ om ≤ 59 then
          some ⟨ts, some (sign * ((oh * 60 + om : Nat) : Int))⟩
        else none
  else none

/-- Model of datetime.fromisoformat on the grammar used by this API:
four-digit year, dash, month, dash, day, then optionally one separator
character followed by HH:MM, optional :SS, and an optional +HH:MM or
-HH:MM offset; fields are validated against the real calendar. -/
def pyFromIso (s : String) : Option PyDatetime := do
  let (y, r1) ← read4 s.data
  let r2 ← expectChar '-' r1
  let (mo, r3) ← read2 r2
  let r4 ← expectChar '-' r3
  let (d, r5) ← read2 r4
  if 1 ≤ y ∧ 1 ≤ mo ∧ mo ≤ 12 ∧ 1 ≤ d ∧ d ≤ daysInMonth y mo then
    match r5 with
    | [] => some ⟨civilTs y mo d 0 0 0, none⟩
    | _ :: rest => parseTimePart y mo d rest
  else none

/-- Drop leading whitespace from a character list. -/
def stripL (l : List Char) : List Char := l.dropWhile Char.isWhitespace

/-- Drop trailing whitespace from a character list. -/
def stripR (l : List Char) : List Char :=
  (l.reverse.dropWhile Char.isWhitespace).reverse

/-- Model of Python str.strip(): remove whitespace from both ends. -/
def pyStrip (s : String) : String := ⟨stripR (stripL s.data)⟩

/-- One announcement record of the announcements collection.  The field
oid is the numeric value of its ObjectId. -/
structure Announcement where
  oid : Nat
  message : String
  start_date : Option PyDatetime
  expiration_date : PyDatetime
  created_at : PyDatetime
deriving DecidableEq

/-- Outcome of one handler call: a successful JSON value, a raised
HTTPException with its status code and detail, or an uncaught Python
exception (the naive/aware comparison TypeError), which FastAPI turns
into an internal server error. -/
inductive Resp (α : Type) where
  | ok (val : α)
  | httpError (status : Nat) (detail : String)
  | pyError
deriving DecidableEq

/-- HTTP status code of a raised HTTPException, none for the other
outcomes. -/
def Resp.status {α : Type} : Resp α → Option Nat
  | .httpError s _ => some s
  | _ => none

/-- Whether the outcome is a success. -/
def Resp.isOk {α : Type} : Resp α → Bool
  | .ok _ => true
  | _ => false

/-- Sort relation used by sort("created_at", -1): created_at descending. -/
def createdDesc (a b : Announcement) : Prop :=
  b.created_at.key ≤ a.created_at.key

instance : DecidableRel createdDesc := fun a b =>
  (inferInstance : Decidable (b.created_at.key ≤ a.created_at.key))

instance : IsTotal Announcement createdDesc :=
  ⟨fun a b => le_total b.created_at.key a.created_at.key⟩

instance : IsTrans Announcement createdDesc :=
  ⟨fun _ _ _ hab hbc => le_trans hbc hab⟩

/-- Teacher-authentication gate shared by the four protected handlers:
None and the empty string are falsy in Python, so both hit the first
branch; an unknown username hits the second.  Returns the status and
detail of the HTTPException to raise, or none when the gate passes. -/
def authError (teachers : List String) (tu : Option String) : Option (Nat × String) :=
  match tu with
  | none => some (401, "Authentication required for this action")
  | some u =>
    if u = "" then some (401, "Authentication required for this action")
    else if u ∈ teachers then none
    else some (401, "Invalid teacher credentials")

/-- Handling of the optional start_date argument shared by create and
update: when absent or empty (falsy) no parse is attempted and the stored
value is None; otherwise a failed parse is an error and a successful
parse is kept. -/
def parseStart : Option String → Except Unit (Option PyDatetime)
  | none => .ok none
  | some s =>
    if s = "" then .ok none
    else
      match pyFromIso (zReplace s) with
      | none => .error ()
      | some d => .ok (some d)

/-- Value of a hexadecimal digit character. -/
def hexDigit? (c : Char) : Option Nat :=
  if '0' ≤ c ∧ c ≤ '9' then some (c.toNat - 48)
  else if 'a' ≤ c ∧ c ≤ 'f' then some (c.toNat - 87)
  else if 'A' ≤ c ∧ c ≤ 'F' then some (c.toNat - 55)
  else none

/-- Model of the ObjectId constructor on strings: it succeeds exactly on
24-character hexadecimal strings, whose numeric value identifies the
record. -/
def parseObjectId (s : String) : Option Nat :=
  if s.data.length = 24 then
    s.data.foldl
      (fun acc c =>
        match acc, hexDigit? c with
        | some a, some v => some (a * 16 + v)
        | _, _ => none)
      (some 0)
  else none

/-- Model of update_one: rewrite the first record matching the predicate
with the given function, leaving everything else in place. -/
def updateFirst {α : Type} (p : α → Bool) (f : α → α) : List α → List α
  | [] => []
  | a :: rest => if p a then f a :: rest else a :: updateFirst p f rest

/-- Model of delete_one: remove the first record matching the predicate. -/
def deleteFirst {α : Type} (p : α → Bool) : List α → List α
  | [] => []
  | a :: rest => if p a then rest else a :: deleteFirst p rest

/-- The Mongo query of get_active_announcements: expiration_date
strictly after now, and start_date null or at most now.  BSON compares
stored instants, hence keys; now is the naive now() value. -/
def activeQuery (now : Int) (a : Announcement) : Bool :=
  decide (now < a.expiration_date.key) &&
    (match a.start_date with
     | none => true
     | some s => decide (s.key ≤ now))

/-- Handler GET /announcements/active: now() is read once, the collection
is filtered by the active-window query and sorted by created_at
descending.  Read-only, no authentication. -/
def get_active_announcements (db : List Announcement) (now : Int) : List Announcement :=
  List.insertionSort createdDesc (db.filter (activeQuery now))

/-- Handler GET /announcements: teacher authentication, then the whole
collection sorted by created_at descending. -/
def get_all_announcements (db : List Announcement) (teachers : List String)
    (teacher_username : Option String) : Resp (List Announcement) :=
  match authError teachers teacher_username with
  | some (st, detail) => .httpError st detail
  | none => .ok (List.insertionSort createdDesc db)

/-- Handler POST /announcements: authentication, message validation, date
parsing with the Z rewrite, the future check of the expiration against a
fresh naive now() (nowValidate), the start-before-expiration check, then
the insert with a second now() as created_at (nowInsert) and the
store-assigned id newId.  Returns the outcome and the new collection. -/
def create_announcement (db : List Announcement) (teachers : List String)
    (message expiration_date : String) (start_date : Option String)
    (teacher_username : Option String) (nowValidate nowInsert : Int)
    (newId : Nat) : Resp Announcement × List Announcement :=
  match authError teachers teacher_username with
  | some (st, detail) => (.httpError st detail, db)
  | none =>
    if message = "" ∨ pyStrip message = "" then
      (.httpError 400 "Message cannot be empty", db)
    else
      match pyFromIso (zReplace expiration_date) with
      | none => (.httpError 400 "Invalid expiration_date format. Use ISO format.", db)
      | some expDate =>
        match parseStart start_date with
        | .error _ => (.httpError 400 "Invalid start_date format. Use ISO format.", db)
        | .ok startDt =>
          match pyLe expDate ⟨nowValidate, none⟩ with
          | none => (.pyError, db)
          | some true => (.httpError 400 "Expiration date must be in the future", db)
          | some false =>
            let newRec : Announcement :=
              ⟨newId, pyStrip message, startDt, expDate, ⟨nowInsert, none⟩⟩
            match startDt with
            | none => (.ok newRec, db ++ [newRec])
            | some s =>
              match pyLe expDate s with
              | none => (.pyError, db)
              | some true => (.httpError 400 "Start date must be before expiration date", db)
              | some false => (.ok newRec, db ++ [newRec])

/-- Handler PUT /announcements/{id}: authentication, id decoding, record
lookup, message validation, date parsing with the Z rewrite, the
start-before-expiration check (there is no future check on update), then
update_one on the three data fields and a re-read of the record. -/
def update_announcement (db : List Announcement) (teachers : List String)
    (announcement_id message expiration_date : String) (start_date : Option String)
    (teacher_username : Option String) : Resp Announcement × List Announcement :=
  match authError teachers teacher_username with
  | some (st, detail) => (.httpError st detail, db)
  | none =>
    match parseObjectId announcement_id with
    | none => (.httpError 400 "Invalid announcement ID format", db)
    | some oid =>
      match db.find? (fun a => a.oid == oid) with
      | none => (.httpError 404 "Announcement not found", db)
      | some _found =>
        if message = "" ∨ pyStrip message = "" then
          (.httpError 400 "Message cannot be empty", db)
        else
          match pyFromIso (zReplace expiration_date) with
          | none => (.httpError 400 "Invalid expiration_date format. Use ISO format.", db)
          | some expDate =>
            match parseStart start_date with
            | .error _ => (.httpError 400 "Invalid start_date format. Use ISO format.", db)
            | .ok startDt =>
              let doWrite : Resp Announcement × List Announcement :=
                let newDb := updateFirst (fun a => a.oid == oid)
                  (fun a => { a with
                    message := pyStrip message
                    start_date := startDt
                    expiration_date := expDate }) db
                match newDb.find? (fun a => a.oid == oid) with
                | some r => (.ok r, newDb)
                | none => (.pyError, newDb)
              match startDt with
              | none => doWrite
              | some s =>
                match pyLe expDate s with
                | none => (.pyError, db)
                | some true => (.httpError 400 "Start date must be before expiration date", db)
                | some false => doWrite

/-- Handler DELETE /announcements/{id}: authentication, id decoding,
record lookup, then delete_one and a confirmation message. -/
def delete_announcement (db : List Announcement) (teachers : List String)
    (announcement_id : String) (teacher_username : Option String) :
    Resp String × List Announcement :=
  match authError teachers teacher_username with
  | some (st, detail) => (.httpError st detail, db)
  | none =>
    match parseObjectId announcement_id with
    | none => (.httpError 400 "Invalid announcement ID format", db)
    | some oid =>
      match db.find? (fun a => a.oid == oid) with
      | none => (.httpError 404 "Announcement not found", db)
      | some _ =>
        (.ok "Announcement deleted successfully", deleteFirst (fun a => a.oid == oid) db)

/-- Data-model invariant of a stored record: the message is a strip fixed
point (stored trimmed), non-empty (hence not whitespace-only), and a
present start date lies strictly before the expiration date. -/
def AnnInv (a : Announcement) : Prop :=
  pyStrip a.message = a.message ∧ a.message ≠ "" ∧
    ∀ s, a.start_date = some s → s.key < a.expiration_date.key

/-- Store states reachable from the empty collection through the writing
operations (create, update, delete) with arbitrary arguments. -/
inductive Reach : List Announcement → Prop where
  | init : Reach []
  | createStep (db : List Announcement) (teachers : List String)
      (msg exp : String) (sd tu : Option String) (n1 n2 : Int) (nid : Nat)
      (h : Reach db) :
      Reach (create_announcement db teachers msg exp sd tu n1 n2 nid).2
  | updateStep (db : List Announcement) (teachers : List String)
      (idStr msg exp : String) (sd tu : Option String)
      (h : Reach db) :
      Reach (update_announcement db teachers idStr msg exp sd tu).2
  | deleteStep (db : List Announcement) (teachers : List String)
      (idStr : String) (tu : Option String)
      (h : Reach db) :
      Reach (delete_announcement db teachers idStr tu).2

/-- A fixed record used by the concrete witnesses: id 1, message x, no
start date, expiration 2099-01-01T00:00:00 naive, created at epoch. -/
def ann0 : Announcement := ⟨1, "x", none, ⟨4070908800, none⟩, ⟨0, none⟩⟩

/-! ### Helper lemmas -/

theorem dropWhile_idem {α : Type} (p : α → Bool) (l : List α) :
    List.dropWhile p (List.dropWhile p l) = List.dropWhile p l := by
  induction l with
  | nil => rfl
  | cons a t ih =>
    by_cases h : p a
    · simp [List.dropWhile_cons, h, ih]
    · simp [List.dropWhile_cons, h]

theorem dropWhile_append_singleton {α : Type} (p : α → Bool) (l : List α) (a : α) :
    (l ++ [a]).dropWhile p =
      if (l.dropWhile p).isEmpty then [a].dropWhile p else l.dropWhile p ++ [a] := by
  induction l with
  | nil => simp
  | cons b t ih =>
    by_cases h : p b
    · simpa [List.dropWhile_cons, h] using ih
    · simp [List.dropWhile_cons, h]

theorem dropWhile_head_false {α : Type} (p : α → Bool) (l : List α) (a : α)
    (t : List α) (h : List.dropWhile p l = a :: t) : p a = false := by
  induction l with
  | nil => simp at h
  | cons b u ih =>
    by_cases hb : p b
    · rw [List.dropWhile_cons, if_pos hb] at h
      exact ih h
    · rw [List.dropWhile_cons, if_neg hb] at h
      cases h
      simpa using hb

theorem stripR_cons (a : Char) (l : List Char) :
    stripR (a :: l) = [] ∨ ∃ u, stripR (a :: l) = a :: u := by
  unfold stripR
  rw [show (a :: l).reverse = l.reverse ++ [a] by simp]
  rw [dropWhile_append_singleton]
  by_cases h : (l.reverse.dropWhile Char.isWhitespace).isEmpty
  · rw [if_pos h]
    by_cases ha : Char.isWhitespace a
    · left; simp [List.dropWhile_cons, ha]
    · right; exact ⟨[], by simp [List.dropWhile_cons, ha]⟩
  · rw [if_neg h]
    right
    exact ⟨(l.reverse.dropWhile Char.isWhitespace).reverse, by simp⟩

theorem stripL_stripR_stripL (l : List Char) :
    stripL (stripR (stripL l)) = stripR (stripL l) := by
  cases h : stripL l with
  | nil => rfl
  | cons a t =>
    have ha : Char.isWhitespace a = false := by
      unfold stripL at h
      exact dropWhile_head_false _ l a t h
    rcases stripR_cons a t with h2 | ⟨u, h2⟩
    · rw [h2]; rfl
    · rw [h2]
      unfold stripL
      rw [List.dropWhile_cons, if_neg (by simp [ha])]

theorem stripR_idem (l : List Char) : stripR (stripR l) = stripR l := by
  unfold stripR
  rw [List.reverse_reverse, dropWhile_idem]

theorem pyStrip_idem (s : String) : pyStrip (pyStrip s) = pyStrip s := by
  show (⟨stripR (stripL (stripR (stripL s.data)))⟩ : String) = ⟨stripR (stripL s.data)⟩
  rw [stripL_stripR_stripL, stripR_idem]

theorem mem_updateFirst {α : Type} (p : α → Bool) (f : α → α) (l : List α) (a : α)
    (h : a ∈ updateFirst p f l) : a ∈ l ∨ ∃ b, b ∈ l ∧ a = f b := by
  induction l with
  | nil => simp [updateFirst] at h
  | cons b t ih =>
    by_cases hb : p b
    · rw [updateFirst, if_pos hb] at h
      rcases List.mem_cons.mp h with h1 | h1
      · exact Or.inr ⟨b, List.mem_cons_self b t, h1⟩
      · exact Or.inl (List.mem_cons_of_mem b h1)
    · rw [updateFirst, if_neg hb] at h
      rcases List.mem_cons.mp h with h1 | h1
      · exact Or.inl (h1 ▸ List.mem_cons_self b t)
      · rcases ih h1 with h2 | ⟨c, hc, hfc⟩
        · exact Or.inl (List.mem_cons_of_mem b h2)
        · exact Or.inr ⟨c, List.mem_cons_of_mem b hc, hfc⟩

theorem mem_deleteFirst {α : Type} (p : α → Bool) (l : List α) (a : α)
    (h : a ∈ deleteFirst p l) : a ∈ l := by
  induction l with
  | nil => simp [deleteFirst] at h
  | cons b t ih =>
    by_cases hb : p b
    · rw [deleteFirst, if_pos hb] at h
      exact List.mem_cons_of_mem b h
    · rw [deleteFirst, if_neg hb] at h
      rcases List.mem_cons.mp h with h1 | h1
      · exact h1 ▸ List.mem_cons_self b t
      · exact List.mem_cons_of_mem b (ih h1)

theorem find?_updateFirst {α : Type} (p : α → Bool) (f : α → α)
    (hp : ∀ a, p (f a) = p a) (l : List α) :
    (updateFirst p f l).find? p = (l.find? p).map f := by
  induction l with
  | nil => rfl
  | cons a t ih =>
    by_cases h : p a
    · rw [updateFirst, if_pos h, List.find?_cons_of_pos _ (by rw [hp]; exact h),
        List.find?_cons_of_pos _ h, Option.map_some']
    · rw [updateFirst, if_neg h, List.find?_cons_of_neg _ (by simp [h]),
        List.find?_cons_of_neg _ (by simp [h]), ih]

theorem pyLe_eq_some_false {a b : PyDatetime} (h : pyLe a b = some false) :
    b.key < a.key := by
  unfold pyLe at h
  split at h
  · simp only [Option.some.injEq, decide_eq_false_iff_not] at h
    omega
  · exact absurd h (by simp)

theorem authError_401 (teachers : List String) (tu : Option String)
    (h : tu = none ∨ ∃ u, tu = some u ∧ u ∉ teachers) :
    ∃ d, authError teachers tu = some (401, d) := by
  rcases h with h | ⟨u, hu, hmem⟩
  · subst h; exact ⟨_, rfl⟩
  · subst hu
    unfold authError
    by_cases he : u = ""
    · simp [he]
    · simp [he, hmem]

theorem authError_pass (teachers : List String) (u : String)
    (hu1 : u ≠ "") (hu2 : u ∈ teachers) :
    authError teachers (some u) = none := by
  unfold authError
  simp [hu1, hu2]

/-! ### Claim theorems -/

/-- C1: for every store state and every time now at which the active
listing is computed, the returned list contains exactly the announcements
whose expiration lies strictly after now and whose start date is absent or
at most now, and the list is sorted by created_at descending.  The time is
a single parameter, read once per call. -/
theorem get_active_exact_and_sorted (db : List Announcement) (now : Int) :
    (∀ a, a ∈ get_active_announcements db now ↔
        a ∈ db ∧ now < a.expiration_date.key ∧
          (a.start_date = none ∨ ∃ s, a.start_date = some s ∧ s.key ≤ now)) ∧
    List.Sorted createdDesc (get_active_announcements db now) := by
  constructor
  · intro a
    unfold get_active_announcements
    rw [List.mem_insertionSort, List.mem_filter]
    unfold activeQuery
    cases hs : a.start_date with
    | none => simp [hs, and_assoc]
    | some s => simp [hs, and_assoc]
  · exact List.sorted_insertionSort createdDesc _

/-- C2 (failing input): the spec scenario create with message
"Exam tomorrow", expiration 2099-01-01T00:00:00Z and no start date, by an
authenticated teacher, does not succeed: the Z suffix makes the parsed
expiration offset-aware, and the comparison with the offset-naive
datetime.now() in the future check raises an uncaught TypeError, so the
call crashes with an internal error and inserts nothing. -/
theorem create_scenario_z_crashes :
    create_announcement [] ["t"] "Exam tomorrow" "2099-01-01T00:00:00Z" none
      (some "t") 0 0 1 = (Resp.pyError, []) := by decide

/-- C5 (failing input): an authenticated create whose parsed expiration
equals the current instant (the spec boundary case), supplied as
2000-01-01T00:00:00Z with now also at 2000-01-01T00:00:00 UTC, does not
fail with InvalidArgument: the aware/naive comparison in the future check
raises an uncaught TypeError instead (nothing is inserted). -/
theorem create_past_aware_expiration_crashes :
    create_announcement [] ["t"] "x" "2000-01-01T00:00:00Z" none (some "t")
      946684800 946684800 1 = (Resp.pyError, []) := by decide

/-- C6 (failing input): an authenticated update on an existing record with
a naive expiration 2099-06-01T00:00:00 and an aware start
2099-07-01T00:00:00Z — a start that is not strictly before the expiration
— does not fail with InvalidArgument: the aware/naive comparison of start
against expiration raises an uncaught TypeError (the store is not
written). -/
theorem update_mixed_awareness_crashes :
    update_announcement [ann0] ["t"] "000000000000000000000001" "y"
      "2099-06-01T00:00:00" (some "2099-07-01T00:00:00Z") (some "t")
      = (Resp.pyError, [ann0]) := by decide

/-- C8 (counterexample): the two authentication failures do not map to
distinct statuses: on the all-announcements listing, a missing credential
and an unknown credential both yield HTTP status 401. -/
theorem get_all_auth_statuses_equal :
    (get_all_announcements [] ["t"] none).status = some 401 ∧
    (get_all_announcements [] ["t"] (some "zz")).status = some 401 := by decide

/-- C9 (counterexample): create with the empty string supplied as
start_date does not fail: the empty string is falsy in Python, so the
handler skips the parse and succeeds, storing no start date. -/
theorem create_empty_start_accepted :
    (create_announcement [] ["t"] "x" "2099-01-01T00:00:00" (some "")
      (some "t") 0 0 1).1
      = Resp.ok ⟨1, "x", none, ⟨4070908800, none⟩, ⟨0, none⟩⟩ := by decide

/-- C3: for an authenticated caller and an existing record, update with a
valid message and a parsable expiration succeeds even when the parsed
expiration lies in the past (at or before an arbitrary reference time
now): the future-expiration check of create is not re-applied on
update. -/
theorem update_no_future_check (db : List Announcement) (teachers : List String)
    (u idStr msg expStr : String) (i : Nat) (found : Announcement)
    (e : PyDatetime) (now : Int)
    (hu1 : u ≠ "") (hu2 : u ∈ teachers)
    (hid : parseObjectId idStr = some i)
    (hfound : db.find? (fun a => a.oid == i) = some found)
    (hmsg : ¬(msg = "" ∨ pyStrip msg = ""))
    (hexp : pyFromIso (zReplace expStr) = some e)
    (_hpast : e.key ≤ now) :
    ∃ r, (update_announcement db teachers idStr msg expStr none (some u)).1
      = Resp.ok r := by
  unfold update_announcement
  rw [authError_pass teachers u hu1 hu2]
  simp only [hid, hfound, hexp, parseStart, if_neg hmsg]
  have hf := find?_updateFirst (fun a => a.oid == i)
    (fun a => { a with message := pyStrip msg, start_date := none, expiration_date := e })
    (fun a => rfl) db
  rw [hfound, Option.map_some'] at hf
  rw [hf]
  exact ⟨_, rfl⟩

/-- Witness for C3: a concrete authenticated update of the stored record
ann0 with expiration 2000-01-01T00:00:00Z, far in the past of the
reference instant, succeeds. -/
theorem update_no_future_check_witness :
    ∃ r, (update_announcement [ann0] ["t"] "000000000000000000000001" "y"
      "2000-01-01T00:00:00Z" none (some "t")).1 = Resp.ok r :=
  update_no_future_check [ann0] ["t"] "t" "000000000000000000000001" "y"
    "2000-01-01T00:00:00Z" 1 ann0 ⟨946684800, some 0⟩ 946684800
    (by decide) (by decide) (by decide) (by decide) (by decide) (by decide)
    (by decide)

theorem mem_create_snd (db : List Announcement) (teachers : List String)
    (msg exp : String) (sd tu : Option String) (n1 n2 : Int) (nid : Nat)
    (a : Announcement)
    (ha : a ∈ (create_announcement db teachers msg exp sd tu n1 n2 nid).2) :
    a ∈ db ∨ AnnInv a := by
  unfold create_announcement at ha
  split at ha
  · exact Or.inl ha
  · split at ha
    · exact Or.inl ha
    · rename_i hmsg
      split at ha
      · exact Or.inl ha
      · rename_i expDate hexp
        split at ha
        · exact Or.inl ha
        · rename_i startDt hstart
          split at ha
          · exact Or.inl ha
          · exact Or.inl ha
          · split at ha
            · rcases List.mem_append.mp ha with h1 | h1
              · exact Or.inl h1
              · rcases List.mem_singleton.mp h1 with rfl
                refine Or.inr ⟨pyStrip_idem msg, ?_, ?_⟩
                · intro h0
                  exact hmsg (Or.inr h0)
                · intro s hs
                  simp at hs
            · rename_i s hsome
              split at ha
              · exact Or.inl ha
              · exact Or.inl ha
              · rename_i hle
                rcases List.mem_append.mp ha with h1 | h1
                · exact Or.inl h1
                · rcases List.mem_singleton.mp h1 with rfl
                  refine Or.inr ⟨pyStrip_idem msg, ?_, ?_⟩
                  · intro h0
                    exact hmsg (Or.inr h0)
                  · intro s' hs'
                    cases hs'
                    exact pyLe_eq_some_false hle

theorem mem_update_snd (db : List Announcement) (teachers : List String)
    (idStr msg exp : String) (sd tu : Option String) (a : Announcement)
    (ha : a ∈ (update_announcement db teachers idStr msg exp sd tu).2) :
    a ∈ db ∨ AnnInv a := by
  unfold update_announcement at ha
  split at ha
  · exact Or.inl ha
  · split at ha
    · exact Or.inl ha
    · split at ha
      · exact Or.inl ha
      · split at ha
        · exact Or.inl ha
        · rename_i hmsg
          split at ha
          · exact Or.inl ha
          · rename_i expDate hexp
            split at ha
            · exact Or.inl ha
            · rename_i startDt hstart
              split at ha
              · -- startDt = none: the write happens
                simp only [] at ha
                split at ha
                · rcases mem_updateFirst _ _ _ _ ha with h1 | ⟨b, _, rfl⟩
                  · exact Or.inl h1
                  · refine Or.inr ⟨pyStrip_idem msg, ?_, ?_⟩
                    · intro h0
                      exact hmsg (Or.inr h0)
                    · intro s hs
                      simp at hs
                · rcases mem_updateFirst _ _ _ _ ha with h1 | ⟨b, _, rfl⟩
                  · exact Or.inl h1
                  · refine Or.inr ⟨pyStrip_idem msg, ?_, ?_⟩
                    · intro h0
                      exact hmsg (Or.inr h0)
                    · intro s hs
                      simp at hs
              · rename_i s hsome
                split at ha
                · exact Or.inl ha
                · exact Or.inl ha
                · rename_i hle
                  simp only [] at ha
                  split at ha
                  · rcases mem_updateFirst _ _ _ _ ha with h1 | ⟨b, _, rfl⟩
                    · exact Or.inl h1
                    · refine Or.inr ⟨pyStrip_idem msg, ?_, ?_⟩
                      · intro h0
                        exact hmsg (Or.inr h0)
                      · intro s' hs'
                        cases hs'
                        exact pyLe_eq_some_false hle
                  · rcases mem_updateFirst _ _ _ _ ha with h1 | ⟨b, _, rfl⟩
                    · exact Or.inl h1
                    · refine Or.inr ⟨pyStrip_idem msg, ?_, ?_⟩
                      · intro h0
                        exact hmsg (Or.inr h0)
                      · intro s' hs'
                        cases hs'
                        exact pyLe_eq_some_false hle

theorem mem_delete_snd (db : List Announcement) (teachers : List String)
    (idStr : String) (tu : Option String) (a : Announcement)
    (ha : a ∈ (delete_announcement db teachers idStr tu).2) : a ∈ db := by
  unfold delete_announcement at ha
  split at ha
  · exact ha
  · split at ha
    · exact ha
    · split at ha
      · exact ha
      · exact mem_deleteFirst _ _ _ ha

/-- C4: every announcement in a store state reachable from the empty
collection through the writing operations satisfies the data-model
invariants: its message is stored trimmed, non-empty and not
whitespace-only, and a present start date lies strictly before the
expiration date. -/
theorem reachable_store_invariant (db : List Announcement) (h : Reach db) :
    ∀ a, a ∈ db → AnnInv a := by
  induction h with
  | init => intro a ha; simp at ha
  | createStep db teachers msg exp sd tu n1 n2 nid _ ih =>
    intro a ha
    rcases mem_create_snd db teachers msg exp sd tu n1 n2 nid a ha with h1 | h1
    · exact ih a h1
    · exact h1
  | updateStep db teachers idStr msg exp sd tu _ ih =>
    intro a ha
    rcases mem_update_snd db teachers idStr msg exp sd tu a ha with h1 | h1
    · exact ih a h1
    · exact h1
  | deleteStep db teachers idStr tu _ ih =>
    intro a ha
    exact ih a (mem_delete_snd db teachers idStr tu a ha)

/-- Witness for C4: the record inserted by one concrete successful create
from the empty store is reachable and satisfies the invariant. -/
theorem reachable_store_invariant_witness :
    AnnInv ⟨7, "hello", none, ⟨4070908800, none⟩, ⟨0, none⟩⟩ :=
  reachable_store_invariant _
    (Reach.createStep [] ["t"] "hello" "2099-01-01T00:00:00" none (some "t")
      0 0 7 Reach.init)
    ⟨7, "hello", none, ⟨4070908800, none⟩, ⟨0, none⟩⟩ (by decide)

theorem update_success_shape (db : List Announcement) (teachers : List String)
    (idStr msg expStr : String) (sd tu : Option String)
    (i : Nat) (found : Announcement) (expDate : PyDatetime)
    (startDt : Option PyDatetime)
    (hauth : authError teachers tu = none)
    (hid : parseObjectId idStr = some i)
    (hfound : db.find? (fun a => a.oid == i) = some found)
    (hmsg : ¬(msg = "" ∨ pyStrip msg = ""))
    (hexp : pyFromIso (zReplace expStr) = some expDate)
    (hstart : parseStart sd = Except.ok startDt)
    (hok : startDt = none ∨ ∃ s, startDt = some s ∧ pyLe expDate s = some false) :
    update_announcement db teachers idStr msg expStr sd tu
      = (Resp.ok { found with
            message := pyStrip msg
            start_date := startDt
            expiration_date := expDate },
         updateFirst (fun a => a.oid == i)
           (fun a => { a with
             message := pyStrip msg
             start_date := startDt
             expiration_date := expDate }) db) := by
  have hf := find?_updateFirst (fun a => a.oid == i)
    (fun a => { a with
      message := pyStrip msg
      start_date := startDt
      expiration_date := expDate })
    (fun a => rfl) db
  rw [hfound, Option.map_some'] at hf
  unfold update_announcement
  rcases hok with rfl | ⟨s, rfl, hle⟩
  · simp only [hauth, hid, hfound, hexp, hstart, if_neg hmsg, hf]
  · simp only [hauth, hid, hfound, hexp, hstart, if_neg hmsg, hle, hf]

/-- C7: a successful update replaces exactly message, start_date and
expiration_date on the first stored record with the decoded id; the new
store is the old one with that record rewritten in place (all other
records and fields kept), the returned record keeps the old id and
created_at, and it is the record re-read from the new store. -/
theorem update_frame (db : List Announcement) (teachers : List String)
    (idStr msg expStr : String) (sd tu : Option String) (r : Announcement)
    (h : (update_announcement db teachers idStr msg expStr sd tu).1 = Resp.ok r) :
    ∃ i found expDate startDt,
      parseObjectId idStr = some i ∧
      db.find? (fun a => a.oid == i) = some found ∧
      pyFromIso (zReplace expStr) = some expDate ∧
      parseStart sd = Except.ok startDt ∧
      r = { found with
            message := pyStrip msg
            start_date := startDt
            expiration_date := expDate } ∧
      r.oid = found.oid ∧ r.created_at = found.created_at ∧
      (update_announcement db teachers idStr msg expStr sd tu).2
        = updateFirst (fun a => a.oid == i)
            (fun a => { a with
              message := pyStrip msg
              start_date := startDt
              expiration_date := expDate }) db ∧
      ((update_announcement db teachers idStr msg expStr sd tu).2).find?
        (fun a => a.oid == i) = some r := by
  have h2 := h
  unfold update_announcement at h2
  split at h2
  · simp at h2
  · rename_i hauth
    split at h2
    · simp at h2
    · rename_i i hid
      split at h2
      · simp at h2
      · rename_i found hfound
        split at h2
        · simp at h2
        · rename_i hmsg
          split at h2
          · simp at h2
          · rename_i expDate hexp
            split at h2
            · simp at h2
            · rename_i startDt hstart
              split at h2
              · have hs := update_success_shape db teachers idStr msg expStr sd tu
                  i found expDate none hauth hid hfound hmsg hexp hstart (Or.inl rfl)
                rw [hs] at h
                simp only [Resp.ok.injEq] at h
                refine ⟨i, found, expDate, none, hid, hfound, hexp, hstart,
                  h.symm, by rw [← h], by rw [← h], by rw [hs], ?_⟩
                rw [hs]
                have hf := find?_updateFirst (fun a => a.oid == i)
                  (fun a => { a with
                    message := pyStrip msg
                    start_date := (none : Option PyDatetime)
                    expiration_date := expDate })
                  (fun a => rfl) db
                rw [hfound, Option.map_some'] at hf
                rw [hf, h]
              · rename_i s
                split at h2
                · simp at h2
                · simp at h2
                · rename_i hle
                  have hs := update_success_shape db teachers idStr msg expStr sd tu
                    i found expDate (some s) hauth hid hfound hmsg hexp hstart
                    (Or.inr ⟨s, rfl, hle⟩)
                  rw [hs] at h
                  simp only [Resp.ok.injEq] at h
                  refine ⟨i, found, expDate, some s, hid, hfound, hexp, hstart,
                    h.symm, by rw [← h], by rw [← h], by rw [hs], ?_⟩
                  rw [hs]
                  have hf := find?_updateFirst (fun a => a.oid == i)
                    (fun a => { a with
                      message := pyStrip msg
                      start_date := some s
                      expiration_date := expDate })
                    (fun a => rfl) db
                  rw [hfound, Option.map_some'] at hf
                  rw [hf, h]

/-- Witness for C7: a concrete successful authenticated update of the
stored record ann0 with message " y " (stored trimmed) and a new naive
expiration; id and created_at are untouched. -/
theorem update_frame_witness :
    ∃ i found expDate startDt,
      parseObjectId "000000000000000000000001" = some i ∧
      ([ann0].find? (fun a => a.oid == i)) = some found ∧
      pyFromIso (zReplace "2099-06-01T00:00:00") = some expDate ∧
      parseStart none = Except.ok startDt ∧
      (⟨1, "y", none, ⟨4083955200, none⟩, ⟨0, none⟩⟩ : Announcement)
        = { found with
            message := pyStrip " y "
            start_date := startDt
            expiration_date := expDate } ∧
      (⟨1, "y", none, ⟨4083955200, none⟩, ⟨0, none⟩⟩ : Announcement).oid = found.oid ∧
      (⟨1, "y", none, ⟨4083955200, none⟩, ⟨0, none⟩⟩ : Announcement).created_at
        = found.created_at ∧
      (update_announcement [ann0] ["t"] "000000000000000000000001" " y "
          "2099-06-01T00:00:00" none (some "t")).2
        = updateFirst (fun a => a.oid == i)
            (fun a => { a with
              message := pyStrip " y "
              start_date := startDt
              expiration_date := expDate }) [ann0] ∧
      ((update_announcement [ann0] ["t"] "000000000000000000000001" " y "
          "2099-06-01T00:00:00" none (some "t")).2).find?
        (fun a => a.oid == i)
        = some ⟨1, "y", none, ⟨4083955200, none⟩, ⟨0, none⟩⟩ :=
  update_frame [ann0] ["t"] "000000000000000000000001" " y "
    "2099-06-01T00:00:00" none (some "t")
    ⟨1, "y", none, ⟨4083955200, none⟩, ⟨0, none⟩⟩ (by decide)

/-- C8 (amended): the missing-credential and unknown-credential failures
both map to HTTP status 401 on every authenticated operation; they are
distinguished only by the detail message, which is
"Authentication required for this action" for a missing credential and
"Invalid teacher credentials" for an unknown one. -/
theorem auth_failures_both_401 (db : List Announcement) (teachers : List String)
    (idStr msg expStr : String) (sd : Option String) (n1 n2 : Int) (nid : Nat)
    (u : String) (hu1 : u ≠ "") (hu2 : u ∉ teachers) :
    (get_all_announcements db teachers none
        = Resp.httpError 401 "Authentication required for this action" ∧
      get_all_announcements db teachers (some u)
        = Resp.httpError 401 "Invalid teacher credentials") ∧
    ((create_announcement db teachers msg expStr sd none n1 n2 nid).1
        = Resp.httpError 401 "Authentication required for this action" ∧
      (create_announcement db teachers msg expStr sd (some u) n1 n2 nid).1
        = Resp.httpError 401 "Invalid teacher credentials") ∧
    ((update_announcement db teachers idStr msg expStr sd none).1
        = Resp.httpError 401 "Authentication required for this action" ∧
      (update_announcement db teachers idStr msg expStr sd (some u)).1
        = Resp.httpError 401 "Invalid teacher credentials") ∧
    ((delete_announcement db teachers idStr none).1
        = Resp.httpError 401 "Authentication required for this action" ∧
      (delete_announcement db teachers idStr (some u)).1
        = Resp.httpError 401 "Invalid teacher credentials") := by
  have ha : authError teachers none
      = some (401, "Authentication required for this action") := rfl
  have hb : authError teachers (some u)
      = some (401, "Invalid teacher credentials") := by
    unfold authError
    simp [hu1, hu2]
  refine ⟨⟨?_, ?_⟩, ⟨?_, ?_⟩, ⟨?_, ?_⟩, ?_, ?_⟩ <;>
    simp [get_all_announcements, create_announcement, update_announcement,
      delete_announcement, ha, hb]

/-- Witness for C8 (amended): concrete instances of both failures on all
four authenticated operations, every status being 401. -/
theorem auth_failures_both_401_witness :
    (get_all_announcements [] ["t"] none
        = Resp.httpError 401 "Authentication required for this action" ∧
      get_all_announcements [] ["t"] (some "zz")
        = Resp.httpError 401 "Invalid teacher credentials") ∧
    ((create_announcement [] ["t"] "x" "2099-01-01T00:00:00" none none 0 0 1).1
        = Resp.httpError 401 "Authentication required for this action" ∧
      (create_announcement [] ["t"] "x" "2099-01-01T00:00:00" none (some "zz") 0 0 1).1
        = Resp.httpError 401 "Invalid teacher credentials") ∧
    ((update_announcement [] ["t"] "000000000000000000000001" "x"
          "2099-01-01T00:00:00" none none).1
        = Resp.httpError 401 "Authentication required for this action" ∧
      (update_announcement [] ["t"] "000000000000000000000001" "x"
          "2099-01-01T00:00:00" none (some "zz")).1
        = Resp.httpError 401 "Invalid teacher credentials") ∧
    ((delete_announcement [] ["t"] "000000000000000000000001" none).1
        = Resp.httpError 401 "Authentication required for this action" ∧
      (delete_announcement [] ["t"] "000000000000000000000001" (some "zz")).1
        = Resp.httpError 401 "Invalid teacher credentials") :=
  auth_failures_both_401 [] ["t"] "000000000000000000000001" "x"
    "2099-01-01T00:00:00" none 0 0 1 "zz" (by decide) (by decide)

/-- C9 (amended): a non-empty start_date string that does not parse makes
both create and update fail with InvalidArgument (status 400) and leave
the store unchanged; the empty string is falsy in Python and is treated
as an absent start_date instead. -/
theorem invalid_start_rejected (db : List Announcement) (teachers : List String)
    (u idStr msg expStr sStr : String) (i : Nat) (found : Announcement)
    (e : PyDatetime) (n1 n2 : Int) (nid : Nat)
    (hu1 : u ≠ "") (hu2 : u ∈ teachers)
    (hmsg : ¬(msg = "" ∨ pyStrip msg = ""))
    (hexp : pyFromIso (zReplace expStr) = some e)
    (hs : sStr ≠ "") (hsbad : pyFromIso (zReplace sStr) = none)
    (hid : parseObjectId idStr = some i)
    (hfound : db.find? (fun a => a.oid == i) = some found) :
    create_announcement db teachers msg expStr (some sStr) (some u) n1 n2 nid
      = (Resp.httpError 400 "Invalid start_date format. Use ISO format.", db) ∧
    update_announcement db teachers idStr msg expStr (some sStr) (some u)
      = (Resp.httpError 400 "Invalid start_date format. Use ISO format.", db) := by
  have hps : parseStart (some sStr) = Except.error () := by
    unfold parseStart
    simp [hs, hsbad]
  constructor
  · unfold create_announcement
    rw [authError_pass teachers u hu1 hu2]
    simp only [hexp, hps, if_neg hmsg]
  · unfold update_announcement
    rw [authError_pass teachers u hu1 hu2]
    simp only [hid, hfound, hexp, hps, if_neg hmsg]

/-- Witness for C9 (amended): the start_date string "notadate" is rejected
with status 400 by both create and update; the store is unchanged. -/
theorem invalid_start_rejected_witness :
    create_announcement [ann0] ["t"] "x" "2099-01-01T00:00:00" (some "notadate")
        (some "t") 0 0 2
      = (Resp.httpError 400 "Invalid start_date format. Use ISO format.", [ann0]) ∧
    update_announcement [ann0] ["t"] "000000000000000000000001" "x"
        "2099-01-01T00:00:00" (some "notadate") (some "t")
      = (Resp.httpError 400 "Invalid start_date format. Use ISO format.", [ann0]) :=
  invalid_start_rejected [ann0] ["t"] "t" "000000000000000000000001" "x"
    "2099-01-01T00:00:00" "notadate" 1 ann0 ⟨4070908800, none⟩ 0 0 2
    (by decide) (by decide) (by decide) (by decide) (by decide) (by decide)
    (by decide) (by decide)

/-- C10: when the credential is absent or unknown, every authenticated
operation fails with status 401 whatever the other arguments are - so
before any argument validation, record lookup or write - and the
announcement store is left unchanged. -/
theorem auth_rejected_before_anything (db : List Announcement)
    (teachers : List String) (tu : Option String)
    (idStr msg expStr : String) (sd : Option String) (n1 n2 : Int) (nid : Nat)
    (h : tu = none ∨ ∃ u, tu = some u ∧ u ∉ teachers) :
    (get_all_announcements db teachers tu).status = some 401 ∧
    (create_announcement db teachers msg expStr sd tu n1 n2 nid).1.status = some 401 ∧
    (create_announcement db teachers msg expStr sd tu n1 n2 nid).2 = db ∧
    (update_announcement db teachers idStr msg expStr sd tu).1.status = some 401 ∧
    (update_announcement db teachers idStr msg expStr sd tu).2 = db ∧
    (delete_announcement db teachers idStr tu).1.status = some 401 ∧
    (delete_announcement db teachers idStr tu).2 = db := by
  obtain ⟨d, hd⟩ := authError_401 teachers tu h
  unfold get_all_announcements create_announcement update_announcement
    delete_announcement
  simp [hd, Resp.status]

/-- Witness for C10: with no credential at all, all four operations return
status 401 and the store [ann0] is unchanged. -/
theorem auth_rejected_before_anything_witness :
    (get_all_announcements [ann0] ["t"] none).status = some 401 ∧
    (create_announcement [ann0] ["t"] "x" "2099-01-01T00:00:00" none none 0 0 2).1.status
      = some 401 ∧
    (create_announcement [ann0] ["t"] "x" "2099-01-01T00:00:00" none none 0 0 2).2
      = [ann0] ∧
    (update_announcement [ann0] ["t"] "000000000000000000000001" "x"
        "2099-01-01T00:00:00" none none).1.status = some 401 ∧
    (update_announcement [ann0] ["t"] "000000000000000000000001" "x"
        "2099-01-01T00:00:00" none none).2 = [ann0] ∧
    (delete_announcement [ann0] ["t"] "000000000000000000000001" none).1.status
      = some 401 ∧
    (delete_announcement [ann0] ["t"] "000000000000000000000001" none).2 = [ann0] :=
  auth_rejected_before_anything [ann0] ["t"] none "000000000000000000000001"
    "x" "2099-01-01T00:00:00" none 0 0 2 (Or.inl rfl)

/-- Supporting fact for the C5 analysis: for an offset-naive parsed
expiration the future check behaves as specified - an expiration at or
before the validation-time now is rejected with status 400 and nothing is
inserted.  The deviation recorded for C5 is therefore exactly the
aware-expiration crash. -/
theorem create_naive_nonfuture_rejected (db : List Announcement)
    (teachers : List String) (u msg expStr : String) (sd : Option String)
    (sdt : Option PyDatetime) (e : PyDatetime) (n1 n2 : Int) (nid : Nat)
    (hu1 : u ≠ "") (hu2 : u ∈ teachers)
    (hmsg : ¬(msg = "" ∨ pyStrip msg = ""))
    (hexp : pyFromIso (zReplace expStr) = some e)
    (hnaive : e.off = none)
    (hsd : parseStart sd = Except.ok sdt)
    (hle : e.ts ≤ n1) :
    create_announcement db teachers msg expStr sd (some u) n1 n2 nid
      = (Resp.httpError 400 "Expiration date must be in the future", db) := by
  have hple : pyLe e ⟨n1, none⟩ = some true := by
    unfold pyLe
    simp [PyDatetime.key, hnaive]
    omega
  unfold create_announcement
  rw [authError_pass teachers u hu1 hu2]
  simp only [hexp, hsd, if_neg hmsg, hple]

/-- Supporting fact for the C6 analysis: when the parsed start and
expiration have the same awareness, an update whose start is not strictly
before its expiration is rejected with status 400 and the store is not
written.  The deviation recorded for C6 is therefore exactly the
mixed-awareness crash. -/
theorem update_start_not_before_exp_rejected (db : List Announcement)
    (teachers : List String) (u idStr msg expStr sStr : String)
    (i : Nat) (found : Announcement) (e s : PyDatetime)
    (hu1 : u ≠ "") (hu2 : u ∈ teachers)
    (hid : parseObjectId idStr = some i)
    (hfound : db.find? (fun a => a.oid == i) = some found)
    (hmsg : ¬(msg = "" ∨ pyStrip msg = ""))
    (hexp : pyFromIso (zReplace expStr) = some e)
    (hsne : sStr ≠ "") (hsparse : pyFromIso (zReplace sStr) = some s)
    (haw : s.off.isSome = e.off.isSome) (hge : e.key ≤ s.key) :
    update_announcement db teachers idStr msg expStr (some sStr) (some u)
      = (Resp.httpError 400 "Start date must be before expiration date", db) := by
  have hps : parseStart (some sStr) = Except.ok (some s) := by
    unfold parseStart
    simp [hsne, hsparse]
  have hple : pyLe e s = some true := by
    unfold pyLe
    simp [haw, hge]
  unfold update_announcement
  rw [authError_pass teachers u hu1 hu2]
  simp only [hid, hfound, hexp, hps, if_neg hmsg, hple]
